import Mathlib

/-!
Shallow embedding of the Hive-ad-agent core (src/ai_engine.py, src/agent_base.py,
src/orchestration/queen_bee.py).

Modelling conventions:
- Python `datetime` instants are natural numbers of whole seconds on a monotone
  clock (timestamps never lie in the future of `now`); `timedelta.seconds` of a
  non-negative delta is the delta modulo 86400 (Python keeps the day part in
  `.days`), which `tdSeconds` reproduces.
- Python `float` money amounts are modelled as exact rationals; no claim in
  scope depends on binary floating-point rounding.
- Python strings are Lean `String`s; `str.strip`, `str.split(sep)` and the
  `in` operator are re-implemented below over the character list so that every
  definition reduces inside the kernel.
-/

/-- Python whitespace characters recognised by `str.strip()` (ASCII subset). -/
def isPyWs (c : Char) : Bool :=
  c = ' ' || c = '\t' || c = '\n' || c = '\r' || c = '\x0b' || c = '\x0c'

/-- Python `str.strip()`: drop leading and trailing whitespace. -/
def pyStrip (s : String) : String :=
  ⟨((s.data.dropWhile isPyWs).reverse.dropWhile isPyWs).reverse⟩

/-- Does the first list start with the second one? -/
def listStartsWith : List Char → List Char → Bool
  | [], _ => true
  | _ :: _, [] => false
  | a :: as, b :: bs => a = b && listStartsWith as bs

/-- Worker loop of `pySplit`: split `cs` at non-overlapping occurrences of the
non-empty separator `sep`, scanning left to right; `cur` is the current chunk
reversed; `fuel` bounds recursion and is chosen large enough to never run out. -/
def pySplitGo (sep : List Char) : Nat → List Char → List Char → List (List Char)
  | _, [], cur => [cur.reverse]
  | 0, cs, cur => [cur.reverse ++ cs]
  | fuel + 1, c :: cs, cur =>
    if listStartsWith sep (c :: cs) then
      cur.reverse :: pySplitGo sep fuel ((c :: cs).drop sep.length) []
    else
      pySplitGo sep fuel cs (c :: cur)

/-- Python `s.split(sep)` for a non-empty separator. -/
def pySplit (s sep : String) : List String :=
  (pySplitGo sep.data (s.data.length + 1) s.data []).map (fun l => ⟨l⟩)

/-- Python `sub in s` for a non-empty `sub` (a separator occurs iff splitting
produces at least two parts). -/
def pyContains (s sub : String) : Bool :=
  2 ≤ (pySplit s sub).length

/-- Seconds field of the Python `timedelta` `now - t` for `t ≤ now`: Python
normalises a timedelta into days plus seconds, so `.seconds` is the elapsed
whole seconds modulo 86400. -/
def tdSeconds (now t : Nat) : Nat :=
  (now - t) % 86400

/-- State of `ResourceTracker` (src/ai_engine.py lines 52-116): the four
configured ceilings, the rolling-window accumulators and the lifetime totals. -/
structure TrackerState where
  max_tokens_per_request : Nat
  max_requests_per_minute : Nat
  max_cost_per_hour : ℚ
  max_tokens_per_hour : Nat
  minute_requests : List Nat
  hour_tokens : Nat
  hour_cost : ℚ
  hour_start : Nat
  total_requests : Nat
  total_tokens : Nat
  total_cost : ℚ
  deriving Repr, DecidableEq

/-- A fresh tracker built by `ResourceTracker.__init__` at time `t0` with the
default ceilings (2000 tokens/request, 10 requests/minute, 5.0 cost/hour,
100000 tokens/hour). -/
def freshTracker (t0 : Nat) : TrackerState :=
  { max_tokens_per_request := 2000
    max_requests_per_minute := 10
    max_cost_per_hour := 5
    max_tokens_per_hour := 100000
    minute_requests := []
    hour_tokens := 0
    hour_cost := 0
    hour_start := t0
    total_requests := 0
    total_tokens := 0
    total_cost := 0 }

/-- `ResourceTracker._reset_if_needed` (lines 73-84): prune the minute list to
entries whose `timedelta.seconds` age is below 60, and zero the hour
accumulators when the anchor's `timedelta.seconds` age reaches 3600. -/
def reset_if_needed (now : Nat) (s : TrackerState) : TrackerState :=
  let s1 := { s with minute_requests := s.minute_requests.filter (fun t => tdSeconds now t < 60) }
  if 3600 ≤ tdSeconds now s1.hour_start then
    { s1 with hour_tokens := 0, hour_cost := 0, hour_start := now }
  else
    s1

/-- Result of `check_limits`: the mutated tracker plus the returned pair
`(allowed, reason)`. -/
structure CheckOut where
  tracker : TrackerState
  allowed : Bool
  reason : String
  deriving Repr

/-- `ResourceTracker.check_limits` (lines 86-104). The minute-window message
reads `minute_requests[0]`, which exists whenever the first guard fires and the
ceiling is positive; `headD 0` stands in for that subscript. -/
def check_limits (now : Nat) (estimated_tokens : Nat) (s : TrackerState) : CheckOut :=
  let s := reset_if_needed now s
  if s.max_requests_per_minute ≤ s.minute_requests.length then
    let wait_time : Int := 60 - (tdSeconds now (s.minute_requests.headD 0) : Int)
    { tracker := s, allowed := false
      reason := "Rate limit reached. Wait " ++ toString wait_time ++ "s" }
  else if s.max_tokens_per_hour < s.hour_tokens + estimated_tokens then
    { tracker := s, allowed := false
      reason := "Token limit reached (" ++ toString s.max_tokens_per_hour ++ "/hour)" }
  else if s.max_cost_per_hour < s.hour_cost + (estimated_tokens : ℚ) / 1000 * (3 / 100) then
    { tracker := s, allowed := false
      reason := "Cost limit reached ($" ++ toString s.max_cost_per_hour ++ "/hour)" }
  else
    { tracker := s, allowed := true, reason := "OK" }

/-- `ResourceTracker.record_usage` (lines 106-116): append the current
timestamp to the minute list and add the increments to the hourly accumulators
and the lifetime totals. -/
def record_usage (now : Nat) (tokens : Nat) (cost : ℚ) (s : TrackerState) : TrackerState :=
  { s with
    minute_requests := s.minute_requests ++ [now]
    hour_tokens := s.hour_tokens + tokens
    hour_cost := s.hour_cost + cost
    total_requests := s.total_requests + 1
    total_tokens := s.total_tokens + tokens
    total_cost := s.total_cost + cost }

/-- JSON values as decoded by Python's `json.loads` (numbers as exact
rationals, objects as ordered key-value lists). -/
inductive Json where
  | null
  | bool (b : Bool)
  | num (q : ℚ)
  | str (s : String)
  | arr (elems : List Json)
  | obj (fields : List (String × Json))
  deriving Repr

/-- Whitespace skipped between JSON tokens. -/
def skipJsonWs (cs : List Char) : List Char :=
  cs.dropWhile (fun c => c = ' ' || c = '\t' || c = '\n' || c = '\r')

/-- Value of a list of decimal digit characters. -/
def digitsToNat (ds : List Char) : Nat :=
  ds.foldl (fun n c => n * 10 + (c.toNat - '0'.toNat)) 0

/-- Parse the body of a JSON string literal after the opening quote, handling
the standard escapes; returns the decoded characters and the remainder after
the closing quote. -/
def parseStrBody : List Char → Except String (List Char × List Char)
  | [] => .error "Unterminated string"
  | '"' :: rest => .ok ([], rest)
  | '\\' :: 'n' :: rest => (parseStrBody rest).map (fun (s, r) => ('\n' :: s, r))
  | '\\' :: 't' :: rest => (parseStrBody rest).map (fun (s, r) => ('\t' :: s, r))
  | '\\' :: 'r' :: rest => (parseStrBody rest).map (fun (s, r) => ('\r' :: s, r))
  | '\\' :: '"' :: rest => (parseStrBody rest).map (fun (s, r) => ('"' :: s, r))
  | '\\' :: '\\' :: rest => (parseStrBody rest).map (fun (s, r) => ('\\' :: s, r))
  | '\\' :: '/' :: rest => (parseStrBody rest).map (fun (s, r) => ('/' :: s, r))
  | '\\' :: _ :: rest => (parseStrBody rest).map (fun (s, r) => ('?' :: s, r))
  | '\\' :: [] => .error "Unterminated string"
  | c :: rest => (parseStrBody rest).map (fun (s, r) => (c :: s, r))

/-- Parse a JSON number (sign, integer part, optional fraction and exponent)
into an exact rational. -/
def parseNumber (cs : List Char) : Except String (ℚ × List Char) :=
  let (neg, cs1) := match cs with
    | '-' :: rest => (true, rest)
    | _ => (false, cs)
  let ds := cs1.takeWhile Char.isDigit
  let cs2 := cs1.dropWhile Char.isDigit
  if ds.isEmpty then .error "Expecting value" else
  let intPart : ℚ := (digitsToNat ds : ℚ)
  let (mant, cs3) : ℚ × List Char := match cs2 with
    | '.' :: cs2a =>
      let fs := cs2a.takeWhile Char.isDigit
      (intPart + (digitsToNat fs : ℚ) / (10 : ℚ) ^ fs.length, cs2a.dropWhile Char.isDigit)
    | _ => (intPart, cs2)
  let (q, cs4) : ℚ × List Char := match cs3 with
    | 'e' :: cs3a | 'E' :: cs3a =>
      let (eneg, cs3b) := match cs3a with
        | '-' :: r => (true, r)
        | '+' :: r => (false, r)
        | _ => (false, cs3a)
      let es := cs3b.takeWhile Char.isDigit
      let e := digitsToNat es
      (if eneg then mant / (10 : ℚ) ^ e else mant * (10 : ℚ) ^ e, cs3b.dropWhile Char.isDigit)
    | _ => (mant, cs3)
  .ok (if neg then -q else q, cs4)

/-- Element loop for JSON arrays: `pv` parses one value; `fuel` bounds the
number of elements. -/
def arrLoop (pv : List Char → Except String (Json × List Char)) :
    Nat → List Char → List Json → Except String (Json × List Char)
  | 0, _, _ => .error "Too deep"
  | fuel + 1, cs, acc =>
    match pv cs with
    | .error e => .error e
    | .ok (v, rest) =>
      match skipJsonWs rest with
      | ']' :: r => .ok (.arr (acc ++ [v]), r)
      | ',' :: r => arrLoop pv fuel r (acc ++ [v])
      | _ => .error "Expecting comma"

/-- Field loop for JSON objects: parses `"key": value` pairs. -/
def objLoop (pv : List Char → Except String (Json × List Char)) :
    Nat → List Char → List (String × Json) → Except String (Json × List Char)
  | 0, _, _ => .error "Too deep"
  | fuel + 1, cs, acc =>
    match skipJsonWs cs with
    | '"' :: cs1 =>
      match parseStrBody cs1 with
      | .error e => .error e
      | .ok (k, cs2) =>
        match skipJsonWs cs2 with
        | ':' :: cs3 =>
          match pv cs3 with
          | .error e => .error e
          | .ok (v, rest) =>
            match skipJsonWs rest with
            | '\x7d' :: r => .ok (.obj (acc ++ [(⟨k⟩, v)]), r)
            | ',' :: r => objLoop pv fuel r (acc ++ [(⟨k⟩, v)])
            | _ => .error "Expecting comma"
        | _ => .error "Expecting colon"
    | _ => .error "Expecting property name"

/-- Recursive-descent JSON value parser; `fuel` bounds nesting depth and is
always instantiated large enough for the input. -/
def parseVal : Nat → List Char → Except String (Json × List Char)
  | 0, _ => .error "Too deep"
  | fuel + 1, cs =>
    match skipJsonWs cs with
    | [] => .error "Expecting value"
    | 'n' :: 'u' :: 'l' :: 'l' :: rest => .ok (.null, rest)
    | 't' :: 'r' :: 'u' :: 'e' :: rest => .ok (.bool true, rest)
    | 'f' :: 'a' :: 'l' :: 's' :: 'e' :: rest => .ok (.bool false, rest)
    | '"' :: rest => (parseStrBody rest).map (fun (s, r) => (.str ⟨s⟩, r))
    | '[' :: rest =>
      (match skipJsonWs rest with
       | ']' :: r => .ok (.arr [], r)
       | cs1 => arrLoop (parseVal fuel) (cs1.length + 1) cs1 [])
    | '\x7b' :: rest =>
      (match skipJsonWs rest with
       | '\x7d' :: r => .ok (.obj [], r)
       | cs1 => objLoop (parseVal fuel) (cs1.length + 1) cs1 [])
    | cs1 => (parseNumber cs1).map (fun (q, r) => (.num q, r))

/-- Python `json.loads`: parse one JSON value and require only whitespace
after it. -/
def jsonLoads (s : String) : Except String Json :=
  match parseVal (s.data.length + 1) s.data with
  | .error e => .error e
  | .ok (v, rest) => if (skipJsonWs rest).isEmpty then .ok v else .error "Extra data"

/-- Lookup of a key in a decoded JSON object (none on other value shapes),
mirroring Python's `"k" in d` / `d["k"]` on the dictionaries the engine
returns. -/
def Json.getKey : Json → String → Option Json
  | .obj kvs, k => kvs.lookup k
  | _, _ => none

/-- The `AIProvider` enum (src/ai_engine.py lines 34-37). -/
inductive AIProvider where
  | openai
  | anthropic
  deriving Repr, DecidableEq

/-- String value of an `AIProvider` member. -/
def AIProvider.val : AIProvider → String
  | .openai => "openai"
  | .anthropic => "anthropic"

/-- The `AIResponse` dataclass (lines 40-49), with the Python defaults
`success=True`, `error=None`. -/
structure AIResponse where
  content : String
  model : String
  tokens_used : Nat
  cost_usd : ℚ
  provider : String
  success : Bool := true
  error : Option String := none
  deriving Repr

/-- Construction-time configuration of `AIEngine` (lines 149-189): the chosen
provider and model, and whether each SDK client object was initialised (it is
`None` when the credential or SDK is missing). -/
structure EngineCfg where
  provider : AIProvider
  model : String
  openai_client : Bool
  anthropic_client : Bool
  deriving Repr, DecidableEq

/-- Oracle for what the provider SDK call would do if issued: either a reply
with content and usage counts, or a raised exception carrying a message. The
network call itself is outside the program. -/
inductive ProviderOutcome where
  | reply (content : String) (prompt_tokens completion_tokens : Nat)
  | exn (msg : String)
  deriving Repr

/-- `AIEngine._openai_generate` (lines 236-275): raises when the client is
`None`, otherwise prices the reported usage (gpt-4o-mini rates 0.00015 and
0.0006 per 1000 tokens), records it on the tracker, and returns a success
response; a raised SDK exception propagates. -/
def openai_generate (e : EngineCfg) (now : Nat) (outcome : ProviderOutcome)
    (tr : TrackerState) : Except String (AIResponse × TrackerState) :=
  if ¬e.openai_client then .error "OpenAI client not initialized"
  else
    match outcome with
    | .exn m => .error m
    | .reply content pt ct =>
      let tokens_used := pt + ct
      let input_cost : ℚ := (pt : ℚ) / 1000 * (15 / 100000)
      let output_cost : ℚ := (ct : ℚ) / 1000 * (6 / 10000)
      let total_cost := input_cost + output_cost
      let tr' := record_usage now tokens_used total_cost tr
      .ok ({ content := content, model := e.model, tokens_used := tokens_used
             cost_usd := total_cost, provider := "openai", success := true
             error := none }, tr')

/-- `AIEngine._anthropic_generate` (lines 277-312): same shape with the Claude
rates 0.003 and 0.015 per 1000 tokens. -/
def anthropic_generate (e : EngineCfg) (now : Nat) (outcome : ProviderOutcome)
    (tr : TrackerState) : Except String (AIResponse × TrackerState) :=
  if ¬e.anthropic_client then .error "Anthropic client not initialized"
  else
    match outcome with
    | .exn m => .error m
    | .reply content pt ct =>
      let tokens_used := pt + ct
      let input_cost : ℚ := (pt : ℚ) / 1000 * (3 / 1000)
      let output_cost : ℚ := (ct : ℚ) / 1000 * (15 / 1000)
      let total_cost := input_cost + output_cost
      let tr' := record_usage now tokens_used total_cost tr
      .ok ({ content := content, model := e.model, tokens_used := tokens_used
             cost_usd := total_cost, provider := "anthropic", success := true
             error := none }, tr')

/-- Result of one `AIEngine.generate` call: the response, the tracker state
after the call, and whether a provider SDK call was actually issued. -/
structure GenOut where
  resp : AIResponse
  tracker : TrackerState
  providerContacted : Bool
  deriving Repr

/-- `AIEngine.generate` (lines 193-234): default the token ceiling to the
tracker's `max_tokens_per_request`, consult `check_limits`, and either return
the budget-rejection failure without touching a provider, or run the selected
provider implementation inside `try/except`, converting any raised exception
into a failure response. The prompt text reaches the provider only through the
`outcome` oracle. -/
def generate (e : EngineCfg) (now : Nat) (max_tokens : Option Nat)
    (outcome : ProviderOutcome) (tr : TrackerState) : GenOut :=
  let mt := max_tokens.getD tr.max_tokens_per_request
  let c := check_limits now mt tr
  if ¬c.allowed then
    { resp := { content := "", model := e.model, tokens_used := 0, cost_usd := 0
                provider := e.provider.val, success := false
                error := some ("Resource limit: " ++ c.reason) }
      tracker := c.tracker
      providerContacted := false }
  else
    let attempt := match e.provider with
      | .openai => openai_generate e now outcome c.tracker
      | .anthropic => anthropic_generate e now outcome c.tracker
    match attempt with
    | .ok (r, tr') =>
      { resp := r, tracker := tr'
        providerContacted := match e.provider with
          | .openai => e.openai_client
          | .anthropic => e.anthropic_client }
    | .error m =>
      { resp := { content := "", model := e.model, tokens_used := 0, cost_usd := 0
                  provider := e.provider.val, success := false, error := some m }
        tracker := c.tracker
        providerContacted := match e.provider with
          | .openai => e.openai_client
          | .anthropic => e.anthropic_client }

/-- The fence-extraction step of `AIEngine.generate_json` (lines 334-343):
strip the reply, then cut out a code block, preferring a block introduced by
a json-tagged fence over the first plain fence. -/
def extractJsonText (raw : String) : String :=
  let content := pyStrip raw
  let content :=
    if pyContains content "```json" then
      (pySplit ((pySplit content "```json").getD 1 "") "```").headD ""
    else if pyContains content "```" then
      (pySplit ((pySplit content "```").getD 1 "") "```").headD ""
    else content
  pyStrip content

/-- `AIEngine.generate_json` (lines 314-346): run `generate` (the schema
directive only alters the prompt, which reaches the provider solely through
the `outcome` oracle); on an engine-level failure return `{"error": ...}`
without parsing anything; otherwise strip, cut out a fenced block and decode,
turning a decode failure into `{"error": ..., "raw": <original content>}`. -/
def generate_json (e : EngineCfg) (now : Nat) (outcome : ProviderOutcome)
    (tr : TrackerState) : Json × TrackerState :=
  let g := generate e now none outcome tr
  if ¬g.resp.success then
    (Json.obj [("error", Json.str (g.resp.error.getD ""))], g.tracker)
  else
    match jsonLoads (extractJsonText g.resp.content) with
    | .ok v => (v, g.tracker)
    | .error err =>
      (Json.obj [("error", Json.str ("Invalid JSON: " ++ err)),
                 ("raw", Json.str g.resp.content)], g.tracker)

/-- The `AgentRole` enum (src/agent_base.py lines 15-19). -/
inductive AgentRole where
  | queen
  | shopper_bee
  | ad_bee
  deriving Repr, DecidableEq

/-- The `MessageType` enum (lines 22-26). -/
inductive MessageType where
  | task
  | result
  | query
  deriving Repr, DecidableEq

/-- The `AgentState` enum (lines 29-33). -/
inductive AgentState where
  | idle
  | thinking
  | working
  deriving Repr, DecidableEq

/-- The `HiveMessage` dataclass (lines 36-44); the opaque `content` payload is
a JSON-shaped value, and the generated id and creation timestamp are opaque
strings. -/
structure HiveMessage where
  id : String
  sender : String
  receiver : String
  content : Json
  msg_type : MessageType
  timestamp : String
  deriving Repr

/-- Mutable state of a `HiveAgent` (lines 47-69). `hasSendCallback` records
whether `on_message_send` was wired up by a dispatcher. -/
structure AgentData where
  agent_id : String
  role : AgentRole
  state : AgentState
  running : Bool
  tasks_completed : Nat
  tasks_failed : Nat
  messages_sent : Nat
  messages_received : Nat
  hasSendCallback : Bool
  deriving Repr

/-- `HiveAgent.send_message` (lines 80-85): stamp the sender field, hand the
message to the routing callback (returned to the caller as the dispatched
message; delivery is the dispatcher's effect, not this agent's), and increment
the sent counter. -/
def send_message (a : AgentData) (m : HiveMessage) : AgentData × HiveMessage :=
  let m' := { m with sender := a.agent_id }
  ({ a with messages_sent := a.messages_sent + 1 }, m')

/-- `HiveAgent.receive_message` (lines 87-97): bump the received counter, go
to `thinking`, run the subclass's `process_message`, dispatch its response if
any, and return to `idle`. The abstract handler is modelled by the increments
it makes to the task counters plus its optional response message — exactly
what the repository's `ShopperBee`/`AdBee` handlers do; they never touch the
message counters or the lifecycle state. -/
def receive_message (handler : HiveMessage → Nat × Nat × Option HiveMessage)
    (a : AgentData) (m : HiveMessage) : AgentData × Option HiveMessage :=
  let a1 := { a with messages_received := a.messages_received + 1
                     state := AgentState.thinking }
  match handler m with
  | (dc, df, some r) =>
    let a2 := { a1 with tasks_completed := a1.tasks_completed + dc
                        tasks_failed := a1.tasks_failed + df }
    let (a3, r') := send_message a2 r
    ({ a3 with state := AgentState.idle }, some r')
  | (dc, df, none) =>
    ({ a1 with tasks_completed := a1.tasks_completed + dc
               tasks_failed := a1.tasks_failed + df
               state := AgentState.idle }, none)

/-- A registered worker bee as the Queen's workflow sees it: its role, the
counters the workflow reads, and its abstract `process_message` body, which
may raise (the `Except.error` case) and otherwise increments
`(tasks_completed, tasks_failed)` by the returned pair. Its optional result
message is routed back to the Queen, whose own `process_message` returns
`None`, so it has no further effect on the workflow state read below. -/
structure WBee where
  role : AgentRole
  tasks_completed : Nat
  tasks_failed : Nat
  messages_received : Nat
  handle : Json → Except String (Nat × Nat)

/-- State of the `QueenBee` orchestrator (src/orchestration/queen_bee.py
lines 17-49): the insertion-ordered registry and the workflow counters. -/
structure QueenState where
  agent_id : String
  worker_bees : List (String × WBee)
  workflows_completed : Nat
  workflows_failed : Nat

/-- `QueenBee._find_bee_by_role` (lines 183-188): first registered bee with
the given role, in registry (insertion) order. -/
def find_bee_by_role (st : QueenState) (r : AgentRole) : Option String :=
  (st.worker_bees.find? (fun p => p.2.role == r)).map (fun p => p.1)

/-- Tasks-completed counter of a registered bee (0 when absent; callers only
use it for registered ids). -/
def beeTasks (st : QueenState) (bid : String) : Nat :=
  ((st.worker_bees.lookup bid).map (fun b => b.tasks_completed)).getD 0

/-- `QueenBee.route_message` (lines 51-57) composed with the receiver's
`receive_message`: an unregistered receiver is silently dropped; otherwise the
bee's received counter is bumped and its handler runs, either raising (the
returned message) or updating its task counters. -/
def deliver_task (st : QueenState) (bid : String) (content : Json) :
    QueenState × Option String :=
  match st.worker_bees.lookup bid with
  | none => (st, none)
  | some bee =>
    let stR := { st with worker_bees := st.worker_bees.map (fun p =>
      if p.1 = bid then
        (p.1, { p.2 with messages_received := p.2.messages_received + 1 })
      else p) }
    match bee.handle content with
    | .error e => (stR, some e)
    | .ok (dc, df) =>
      ({ stR with worker_bees := stR.worker_bees.map (fun p =>
        if p.1 = bid then
          (p.1, { p.2 with tasks_completed := p.2.tasks_completed + dc
                           tasks_failed := p.2.tasks_failed + df })
        else p) }, none)

/-- Inner result dictionary of `QueenBee._full_campaign_workflow`. -/
structure WfRes where
  success : Bool
  error : Option String := none
  message : Option String := none
  bees_involved : List String := []
  deriving Repr, DecidableEq

/-- Payload of the task message sent to the shopper bee (lines 123-128). -/
def shopperTaskContent (data : Json) : Json :=
  Json.obj [("type", Json.str "analyze_user"),
            ("user_id", (data.getKey "user_id").getD Json.null)]

/-- Payload of the task message sent to the ad bee (lines 152-164). -/
def adTaskContent (data : Json) : Json :=
  Json.obj [("type", Json.str "create_campaign"),
    ("shopper_analysis", Json.obj
      [("ai_segment", Json.obj [("segment", Json.str "tech_enthusiast")]),
       ("ai_interests", Json.arr [Json.str "Electronics",
          Json.str "Gadgets", Json.str "Tech"]),
       ("recommended_products",
          (data.getKey "products").getD (Json.arr []))])]

/-- `QueenBee._full_campaign_workflow` (lines 109-181): locate the shopper
bee, task it with `analyze_user`, wait, test its absolute completed counter,
then the same for the ad bee with `create_campaign`; a missing role or a
non-advanced counter short-circuits with a failure dictionary; a raised
exception from a bee handler propagates (the `Except.error` case), keeping the
mutations made before the raise. -/
def full_campaign_workflow (st : QueenState) (data : Json) :
    Except String WfRes × QueenState :=
  match find_bee_by_role st AgentRole.shopper_bee with
  | none => (.ok { success := false, error := some "Shopper bee not found" }, st)
  | some sid =>
    let (st1, exn) := deliver_task st sid (shopperTaskContent data)
    match exn with
    | some e => (.error e, st1)
    | none =>
      if beeTasks st1 sid = 0 then
        (.ok { success := false, error := some "Shopper analysis failed" }, st1)
      else
        match find_bee_by_role st1 AgentRole.ad_bee with
        | none => (.ok { success := false, error := some "Ad bee not found" }, st1)
        | some aid =>
          let (st2, exn2) := deliver_task st1 aid (adTaskContent data)
          match exn2 with
          | some e => (.error e, st2)
          | none =>
            if beeTasks st2 aid = 0 then
              (.ok { success := false, error := some "Campaign creation failed" }, st2)
            else
              (.ok { success := true, message := some "Complete workflow executed"
                     bees_involved := [sid, aid] }, st2)

/-- Outer result dictionary of `QueenBee.execute_workflow`; `execution_time`
is `none` exactly when the code never assigned that key. -/
structure WfResult where
  success : Bool
  error : Option String := none
  message : Option String := none
  bees_involved : List String := []
  workflow_id : Option String := none
  execution_time : Option ℚ := none
  deriving Repr, DecidableEq

/-- `QueenBee.execute_workflow` (lines 64-107): generate a workflow id from
the start timestamp `ts`, dispatch on the workflow type, and on the normal
path bump exactly one workflow counter and stamp the id and the elapsed
duration; on a raised exception bump the failed counter and return a
dictionary with the id but no `execution_time` key. `elapsed` abstracts the
wall-clock duration measured by the two `datetime.now()` calls. -/
def execute_workflow (ts : String) (elapsed : ℚ) (st : QueenState)
    (workflow_type : String) (data : Json) : WfResult × QueenState :=
  let workflow_id := "workflow_" ++ ts
  let (res, st1) :=
    if workflow_type = "full_ad_campaign" then full_campaign_workflow st data
    else (.ok { success := false, error := some "Unknown workflow" }, st)
  match res with
  | .ok r =>
    let st2 :=
      if r.success then { st1 with workflows_completed := st1.workflows_completed + 1 }
      else { st1 with workflows_failed := st1.workflows_failed + 1 }
    ({ success := r.success, error := r.error, message := r.message
       bees_involved := r.bees_involved, workflow_id := some workflow_id
       execution_time := some elapsed }, st2)
  | .error e =>
    ({ success := false, error := some e, workflow_id := some workflow_id }
     , { st1 with workflows_failed := st1.workflows_failed + 1 })

/-- Iterated bare `check_limits` calls (no interleaved `record_usage`) at the
given call times, returning each call's `allowed` flag. -/
def run_checks (est : Nat) : List Nat → TrackerState → List Bool × TrackerState
  | [], s => ([], s)
  | now :: rest, s =>
    let c := check_limits now est s
    let (bs, sF) := run_checks est rest c.tracker
    (c.allowed :: bs, sF)

/-- The tracker protocol `AIEngine.generate` follows on each request: one
`check_limits` call and, when admitted, one `record_usage` call with the
actual usage. A call is `(now, estimated_tokens, actual_tokens, actual_cost)`;
the returned list holds each call's `(allowed, reason)` pair. -/
def admit_record_run : List (Nat × Nat × Nat × ℚ) → TrackerState →
    List (Bool × String) × TrackerState
  | [], s => ([], s)
  | (now, est, tok, cost) :: rest, s =>
    let c := check_limits now est s
    let s1 := if c.allowed then record_usage now tok cost c.tracker else c.tracker
    ((c.allowed, c.reason) :: (admit_record_run rest s1).1, (admit_record_run rest s1).2)

/-- Entries of a timestamp list lying in the closed interval from `T` to `m`
(the part of the rolling minute already in the past at time `m`). -/
def countIn (T m : Nat) (l : List Nat) : Nat :=
  l.countP (fun t => decide (T ≤ t) && decide (t ≤ m))

theorem check_limits_tracker (now est : Nat) (s : TrackerState) :
    (check_limits now est s).tracker = reset_if_needed now s := by
  unfold check_limits
  dsimp only
  split
  · rfl
  · split
    · rfl
    · split <;> rfl

theorem reset_if_needed_total_requests (now : Nat) (s : TrackerState) :
    (reset_if_needed now s).total_requests = s.total_requests := by
  unfold reset_if_needed
  dsimp only
  split <;> rfl

theorem reset_if_needed_total_tokens (now : Nat) (s : TrackerState) :
    (reset_if_needed now s).total_tokens = s.total_tokens := by
  unfold reset_if_needed
  dsimp only
  split <;> rfl

theorem reset_if_needed_total_cost (now : Nat) (s : TrackerState) :
    (reset_if_needed now s).total_cost = s.total_cost := by
  unfold reset_if_needed
  dsimp only
  split <;> rfl

theorem reset_if_needed_max_rpm (now : Nat) (s : TrackerState) :
    (reset_if_needed now s).max_requests_per_minute = s.max_requests_per_minute := by
  unfold reset_if_needed
  dsimp only
  split <;> rfl

theorem string_append_ne_empty (p r : String) (h : p.data ≠ []) : p ++ r ≠ "" := by
  intro he
  apply h
  have hd : p.data ++ r.data = ([] : List Char) := congrArg String.data he
  exact (List.append_eq_nil.mp hd).1

/-- Which SDK client object backs the construction-time provider choice. -/
def selectedClientConfigured (e : EngineCfg) : Bool :=
  match e.provider with
  | .openai => e.openai_client
  | .anthropic => e.anthropic_client

/-- A tracker whose minute list holds ten requests recorded at time 0, i.e.
the state of a default tracker after ten `record_usage` calls at time 0. -/
def trTenAtZero : TrackerState :=
  { freshTracker 0 with minute_requests := List.replicate 10 0 }

/-- A default tracker that has accumulated 500 hour-window tokens since its
hour anchor at time 0. -/
def trHour500 : TrackerState :=
  { freshTracker 0 with hour_tokens := 500 }

/-- C2. The claim says `check_limits` first prunes the minute list to entries
within 60 seconds of the current time (and resets hour accumulators older
than 3600 seconds). The code computes ages with `timedelta.seconds`, which
discards whole days, so at time 86400 ten request timestamps recorded at time
0 — each a full day, not 60 seconds, old — are all retained and the call is
rejected on the minute ceiling, where the claim requires them pruned and the
call admitted (hour and cost ceilings are far from binding here). -/
theorem c2_check_limits_day_wrap_bug :
    (check_limits 86400 100 trTenAtZero).allowed = false ∧
    (check_limits 86400 100 trTenAtZero).tracker.minute_requests = List.replicate 10 0 ∧
    trTenAtZero.minute_requests.all (fun t => 60 ≤ 86400 - t) = true ∧
    trTenAtZero.max_requests_per_minute = 10 ∧
    trTenAtZero.hour_tokens + 100 ≤ trTenAtZero.max_tokens_per_hour := by
  refine ⟨by decide, by decide, by decide, by decide, by decide⟩

/-- C4. The claim says a `check_limits` call more than 3600 seconds after the
hour anchor resets the hourly accumulators and advances the anchor. At time
87000 — 87000 seconds after the anchor at 0 — `timedelta.seconds` is
87000 mod 86400 = 600 < 3600, so the code leaves the 500 accumulated tokens
and the anchor untouched. -/
theorem c4_hour_reset_day_wrap_bug :
    3600 < 87000 - trHour500.hour_start ∧
    (check_limits 87000 100 trHour500).tracker.hour_tokens = 500 ∧
    (check_limits 87000 100 trHour500).tracker.hour_start = 0 := by
  refine ⟨by decide, ?_, ?_⟩ <;> rw [check_limits_tracker] <;> decide

/-- An engine constructed with the OpenAI provider and a present API key. -/
def engOk : EngineCfg :=
  { provider := .openai, model := "gpt-4o-mini"
    openai_client := true, anthropic_client := false }

/-- An engine constructed with the OpenAI provider but no `OPENAI_API_KEY`,
so its client object is `None`. -/
def engNoKey : EngineCfg :=
  { provider := .openai, model := "gpt-4o-mini"
    openai_client := false, anthropic_client := false }

/-- C7. For every request (every provider outcome, token ceiling, clock value
and tracker state), `generate` on an engine whose selected provider client is
unconfigured returns a response with `success=false` and a non-empty error
string, and — being a total function of its inputs — never lets an exception
escape: the raised "client not initialized" exception is caught by the
`try/except` in `generate` (a budget rejection likewise yields a failure
response with a non-empty error before any provider code runs). -/
theorem c7_unconfigured_provider_fails (e : EngineCfg) (now : Nat)
    (mt : Option Nat) (outcome : ProviderOutcome) (tr : TrackerState)
    (hc : selectedClientConfigured e = false) :
    (generate e now mt outcome tr).resp.success = false ∧
    ∃ msg, (generate e now mt outcome tr).resp.error = some msg ∧ msg ≠ "" := by
  unfold generate
  dsimp only
  by_cases hA : (check_limits now (mt.getD tr.max_tokens_per_request) tr).allowed
  · cases hp : e.provider
    · have hco : e.openai_client = false := by
        simpa [selectedClientConfigured, hp] using hc
      simp [hA, hp, openai_generate, hco]
    · have hco : e.anthropic_client = false := by
        simpa [selectedClientConfigured, hp] using hc
      simp [hA, hp, anthropic_generate, hco]
  · have hA' : (check_limits now (mt.getD tr.max_tokens_per_request) tr).allowed = false := by
      simpa using hA
    simp [hA']
    exact string_append_ne_empty "Resource limit: " _ (by decide)

/-- Witness for C7: a concrete engine with the OpenAI provider and no API
key, at time 0 on a fresh tracker, with the outcome the SDK would have
produced had it been called. -/
theorem c7_unconfigured_provider_fails_witness :
    selectedClientConfigured engNoKey = false ∧
    (generate engNoKey 0 none (.reply "hi" 10 10) (freshTracker 0)).resp.success = false ∧
    ∃ msg, (generate engNoKey 0 none (.reply "hi" 10 10)
      (freshTracker 0)).resp.error = some msg ∧ msg ≠ "" := by
  have h := c7_unconfigured_provider_fails engNoKey 0 none (.reply "hi" 10 10)
    (freshTracker 0) (by decide)
  exact ⟨by decide, h.1, h.2⟩

theorem openai_generate_ok_shape (e : EngineCfg) (now : Nat)
    (outcome : ProviderOutcome) (tr : TrackerState) (r : AIResponse)
    (tr' : TrackerState) (h : openai_generate e now outcome tr = .ok (r, tr')) :
    r.success = true ∧ r.error = none := by
  unfold openai_generate at h
  split at h
  · exact absurd h (by simp)
  · cases outcome with
    | exn m => exact absurd h (by simp)
    | reply c pt ct =>
      simp only [Except.ok.injEq, Prod.mk.injEq] at h
      obtain ⟨hr, -⟩ := h
      rw [← hr]
      exact ⟨rfl, rfl⟩

theorem anthropic_generate_ok_shape (e : EngineCfg) (now : Nat)
    (outcome : ProviderOutcome) (tr : TrackerState) (r : AIResponse)
    (tr' : TrackerState) (h : anthropic_generate e now outcome tr = .ok (r, tr')) :
    r.success = true ∧ r.error = none := by
  unfold anthropic_generate at h
  split at h
  · exact absurd h (by simp)
  · cases outcome with
    | exn m => exact absurd h (by simp)
    | reply c pt ct =>
      simp only [Except.ok.injEq, Prod.mk.injEq] at h
      obtain ⟨hr, -⟩ := h
      rw [← hr]
      exact ⟨rfl, rfl⟩

theorem check_fresh0 : (check_limits 0 2000 (freshTracker 0)).allowed = true := by
  norm_num [check_limits, reset_if_needed, tdSeconds, freshTracker]

/-- C5 counterexample. The claim requires every successful response to have
populated content. A provider reply whose message content is the empty string
(as the OpenAI API can return) is passed through verbatim: `generate` then
returns `success=true`, empty `content` and no error, so the "success=true
with content populated" arm of the claimed dichotomy fails. -/
theorem c5_empty_content_success_counterexample :
    (generate engOk 0 none (.reply "" 10 10) (freshTracker 0)).resp.success = true ∧
    (generate engOk 0 none (.reply "" 10 10) (freshTracker 0)).resp.content = "" ∧
    (generate engOk 0 none (.reply "" 10 10) (freshTracker 0)).resp.error = none := by
  have h := check_fresh0
  norm_num [generate, engOk, freshTracker] at h ⊢
  norm_num [openai_generate, engOk, h]

/-- C5 as amended: every response `generate` returns satisfies
`success=true → error=None` (content is the provider's reply verbatim and may
be empty) and `success=false → content empty and error set` — the arms remain
mutually exclusive and exhaustive, but "content populated" holds only up to
what the provider actually returned. -/
theorem c5_success_error_dichotomy (e : EngineCfg) (now : Nat)
    (mt : Option Nat) (outcome : ProviderOutcome) (tr : TrackerState) :
    ((generate e now mt outcome tr).resp.success = true →
      (generate e now mt outcome tr).resp.error = none) ∧
    ((generate e now mt outcome tr).resp.success = false →
      (generate e now mt outcome tr).resp.content = "" ∧
      ∃ m, (generate e now mt outcome tr).resp.error = some m) := by
  unfold generate
  dsimp only
  by_cases hA : (check_limits now (mt.getD tr.max_tokens_per_request) tr).allowed
  · cases hp : e.provider
    · rcases hatt : openai_generate e now outcome (check_limits now
        (mt.getD tr.max_tokens_per_request) tr).tracker with m | pr
      · simp [hA, hp, hatt]
      · obtain ⟨r, tr'⟩ := pr
        have hs := openai_generate_ok_shape e now outcome _ r tr' hatt
        simp [hA, hp, hatt, hs.1, hs.2]
    · rcases hatt : anthropic_generate e now outcome (check_limits now
        (mt.getD tr.max_tokens_per_request) tr).tracker with m | pr
      · simp [hA, hp, hatt]
      · obtain ⟨r, tr'⟩ := pr
        have hs := anthropic_generate_ok_shape e now outcome _ r tr' hatt
        simp [hA, hp, hatt, hs.1, hs.2]
  · have hA' : (check_limits now (mt.getD tr.max_tokens_per_request) tr).allowed = false := by
      simpa using hA
    simp [hA']

/-- Witness for C5's amended dichotomy: both arms at concrete inputs — a
successful call (configured engine, provider reply) has no error, and a
failed call (unconfigured engine) has empty content and an error. -/
theorem c5_success_error_dichotomy_witness :
    (generate engOk 0 none (.reply "hi" 10 10) (freshTracker 0)).resp.error = none ∧
    ((generate engNoKey 0 none (.reply "hi" 10 10) (freshTracker 0)).resp.content = "" ∧
      ∃ m, (generate engNoKey 0 none (.reply "hi" 10 10)
        (freshTracker 0)).resp.error = some m) := by
  constructor
  · apply (c5_success_error_dichotomy engOk 0 none (.reply "hi" 10 10) (freshTracker 0)).1
    have h := check_fresh0
    norm_num [generate, engOk, freshTracker] at h ⊢
    norm_num [openai_generate, engOk, h]
  · apply (c5_success_error_dichotomy engNoKey 0 none (.reply "hi" 10 10) (freshTracker 0)).2
    have h := check_fresh0
    norm_num [generate, engNoKey, freshTracker] at h ⊢
    norm_num [openai_generate, engNoKey, h]

/-- C1. One `generate` call drives the tracker exactly as claimed: when
`check_limits` rejects, the response is a failure embedding the rejection
reason after the `"Resource limit: "` tag, no provider is contacted, and the
tracker state is exactly `reset_if_needed` of the old state (lazy window
advancement only — in particular all three lifetime totals are unchanged, and
nothing is recorded); when the call is admitted and the provider reply
arrives, the returned tracker state is `record_usage` of the post-check state
at the actual token count and the priced actual cost, i.e. `record` has run
before the response is returned, and the response carries those same actuals
(stated for both provider variants at their respective rates). -/
theorem c1_admit_before_call_record_after (e : EngineCfg) (now : Nat)
    (mt : Option Nat) (outcome : ProviderOutcome) (tr : TrackerState) :
    ((check_limits now (mt.getD tr.max_tokens_per_request) tr).allowed = false →
      (generate e now mt outcome tr).resp.success = false ∧
      (generate e now mt outcome tr).resp.error =
        some ("Resource limit: " ++
          (check_limits now (mt.getD tr.max_tokens_per_request) tr).reason) ∧
      (generate e now mt outcome tr).providerContacted = false ∧
      (generate e now mt outcome tr).tracker = reset_if_needed now tr ∧
      (generate e now mt outcome tr).tracker.total_requests = tr.total_requests ∧
      (generate e now mt outcome tr).tracker.total_tokens = tr.total_tokens ∧
      (generate e now mt outcome tr).tracker.total_cost = tr.total_cost) ∧
    (∀ content pt ct,
      (check_limits now (mt.getD tr.max_tokens_per_request) tr).allowed = true →
      outcome = ProviderOutcome.reply content pt ct →
      e.provider = AIProvider.openai → e.openai_client = true →
      (generate e now mt outcome tr).tracker =
        record_usage now (pt + ct)
          ((pt : ℚ) / 1000 * (15 / 100000) + (ct : ℚ) / 1000 * (6 / 10000))
          (check_limits now (mt.getD tr.max_tokens_per_request) tr).tracker ∧
      (generate e now mt outcome tr).resp.tokens_used = pt + ct ∧
      (generate e now mt outcome tr).resp.cost_usd =
        (pt : ℚ) / 1000 * (15 / 100000) + (ct : ℚ) / 1000 * (6 / 10000) ∧
      (generate e now mt outcome tr).resp.success = true) ∧
    (∀ content pt ct,
      (check_limits now (mt.getD tr.max_tokens_per_request) tr).allowed = true →
      outcome = ProviderOutcome.reply content pt ct →
      e.provider = AIProvider.anthropic → e.anthropic_client = true →
      (generate e now mt outcome tr).tracker =
        record_usage now (pt + ct)
          ((pt : ℚ) / 1000 * (3 / 1000) + (ct : ℚ) / 1000 * (15 / 1000))
          (check_limits now (mt.getD tr.max_tokens_per_request) tr).tracker ∧
      (generate e now mt outcome tr).resp.tokens_used = pt + ct ∧
      (generate e now mt outcome tr).resp.cost_usd =
        (pt : ℚ) / 1000 * (3 / 1000) + (ct : ℚ) / 1000 * (15 / 1000) ∧
      (generate e now mt outcome tr).resp.success = true) := by
  refine ⟨?_, ?_, ?_⟩
  · intro hA
    simp [generate, hA, check_limits_tracker, reset_if_needed_total_requests,
      reset_if_needed_total_tokens, reset_if_needed_total_cost]
  · intro content pt ct hA ho hp hc
    subst ho
    simp [generate, hA, hp, openai_generate, hc]
  · intro content pt ct hA ho hp hc
    subst ho
    simp [generate, hA, hp, anthropic_generate, hc]

/-- Witness for C1: the rejection arm on a tracker whose minute window is
full at time 0, and the record arm on a fresh tracker with a concrete
provider reply of 100 prompt and 50 completion tokens. -/
theorem c1_admit_before_call_record_after_witness :
    ((check_limits 0 2000 trTenAtZero).allowed = false ∧
      (generate engOk 0 none (.reply "x" 1 1) trTenAtZero).resp.success = false ∧
      (generate engOk 0 none (.reply "x" 1 1) trTenAtZero).providerContacted = false ∧
      (generate engOk 0 none (.reply "x" 1 1) trTenAtZero).tracker =
        reset_if_needed 0 trTenAtZero) ∧
    ((check_limits 0 2000 (freshTracker 0)).allowed = true ∧
      (generate engOk 0 none (.reply "hello" 100 50) (freshTracker 0)).tracker =
        record_usage 0 (100 + 50)
          ((100 : ℚ) / 1000 * (15 / 100000) + (50 : ℚ) / 1000 * (6 / 10000))
          (check_limits 0 2000 (freshTracker 0)).tracker) := by
  constructor
  · have h := (c1_admit_before_call_record_after engOk 0 none (.reply "x" 1 1)
      trTenAtZero).1 (by decide)
    exact ⟨by decide, h.1, h.2.2.1, h.2.2.2.1⟩
  · have h := (c1_admit_before_call_record_after engOk 0 none (.reply "hello" 100 50)
      (freshTracker 0)).2.1 "hello" 100 50 check_fresh0 rfl rfl rfl
    exact ⟨check_fresh0, h.1⟩

theorem gen_engOk_fresh_resp (content : String) (pt ct : Nat) :
    (generate engOk 0 none (.reply content pt ct) (freshTracker 0)).resp.success = true ∧
    (generate engOk 0 none (.reply content pt ct) (freshTracker 0)).resp.content = content := by
  have h := check_fresh0
  norm_num [generate, engOk, freshTracker] at h ⊢
  norm_num [openai_generate, engOk, h]

theorem gen_engNoKey_fresh_resp (content : String) (pt ct : Nat) :
    (generate engNoKey 0 none (.reply content pt ct) (freshTracker 0)).resp.success = false ∧
    (generate engNoKey 0 none (.reply content pt ct) (freshTracker 0)).resp.error =
      some "OpenAI client not initialized" := by
  have h := check_fresh0
  norm_num [generate, engNoKey, freshTracker] at h ⊢
  norm_num [openai_generate, engNoKey, h]

/-- C10. When the underlying `generate` call fails (budget rejection or
provider failure), `generate_json` returns exactly the one-key dictionary
`{"error": <that failure's error text>}` — no `"raw"` key and, the result
being this fixed dictionary, no JSON decoding of any content — while a decode
failure on a successful call yields a dictionary that does carry `"raw"`
bound to the original reply text (and an `"error"` describing the decode
failure), so the two failure kinds are distinguishable. -/
theorem c10_engine_failure_error_dict (e : EngineCfg) (now : Nat)
    (outcome : ProviderOutcome) (tr : TrackerState) :
    (∀ msg, (generate e now none outcome tr).resp.success = false →
      (generate e now none outcome tr).resp.error = some msg →
      (generate_json e now outcome tr).1 = Json.obj [("error", Json.str msg)] ∧
      ((generate_json e now outcome tr).1).getKey "raw" = none ∧
      ((generate_json e now outcome tr).1).getKey "error" = some (Json.str msg)) ∧
    (∀ reply err, (generate e now none outcome tr).resp.success = true →
      (generate e now none outcome tr).resp.content = reply →
      jsonLoads (extractJsonText reply) = .error err →
      ((generate_json e now outcome tr).1).getKey "raw" = some (Json.str reply) ∧
      ((generate_json e now outcome tr).1).getKey "error" =
        some (Json.str ("Invalid JSON: " ++ err))) := by
  constructor
  · intro msg hf he
    simp [generate_json, hf, he, Json.getKey, List.lookup]
  · intro reply err hs hc hj
    simp [generate_json, hs, hc, hj, Json.getKey, List.lookup]

/-- Witness for C10: the unconfigured engine yields the bare error
dictionary with no raw key; a configured engine whose reply "not json" fails
to decode yields a dictionary carrying the raw reply. -/
theorem c10_engine_failure_error_dict_witness :
    ((generate_json engNoKey 0 (.reply "hi" 10 10) (freshTracker 0)).1 =
      Json.obj [("error", Json.str "OpenAI client not initialized")] ∧
     ((generate_json engNoKey 0 (.reply "hi" 10 10) (freshTracker 0)).1).getKey "raw" = none) ∧
    ((generate_json engOk 0 (.reply "not json" 10 10) (freshTracker 0)).1).getKey "raw" =
      some (Json.str "not json") := by
  constructor
  · have h := (c10_engine_failure_error_dict engNoKey 0 (.reply "hi" 10 10)
      (freshTracker 0)).1 "OpenAI client not initialized"
      (gen_engNoKey_fresh_resp "hi" 10 10).1 (gen_engNoKey_fresh_resp "hi" 10 10).2
    exact ⟨h.1, h.2.1⟩
  · exact ((c10_engine_failure_error_dict engOk 0 (.reply "not json" 10 10)
      (freshTracker 0)).2 "not json" "Expecting value"
      (gen_engOk_fresh_resp "not json" 10 10).1
      (gen_engOk_fresh_resp "not json" 10 10).2 rfl).1

theorem generate_json_success_eval (e : EngineCfg) (now : Nat)
    (outcome : ProviderOutcome) (tr : TrackerState) (reply : String)
    (hs : (generate e now none outcome tr).resp.success = true)
    (hc : (generate e now none outcome tr).resp.content = reply) :
    (generate_json e now outcome tr).1 =
      match jsonLoads (extractJsonText reply) with
      | .ok v => v
      | .error err => Json.obj [("error", Json.str ("Invalid JSON: " ++ err)),
                                ("raw", Json.str reply)] := by
  simp [generate_json, hs, hc]
  rcases hj : jsonLoads (extractJsonText reply) with err | v <;> simp [hj]

/-- The reply used against C6: its first fenced code block holds `true`, and
a later json-tagged block holds `5`. -/
def twoFence : String := "```\ntrue\n``` and then ```json\n5\n```"

/-- C6 counterexample. The claim says that when the reply contains a fenced
code block, the first such block's contents are extracted and decoded. For a
reply whose first fenced block decodes to `true` but which also contains a
later ```json-tagged block holding `5`, the code prefers the json-tagged
block and `generate_json` returns `5`, not the first block's `true`. -/
theorem c6_first_fence_counterexample :
    (generate_json engOk 0 (.reply twoFence 10 10) (freshTracker 0)).1 = Json.num 5 ∧
    jsonLoads (pyStrip "\ntrue\n") = .ok (Json.bool true) ∧
    Json.num 5 ≠ Json.bool true := by
  refine ⟨?_, rfl, fun h => Json.noConfusion h⟩
  rw [generate_json_success_eval engOk 0 (.reply twoFence 10 10) (freshTracker 0) twoFence
    (gen_engOk_fresh_resp twoFence 10 10).1 (gen_engOk_fresh_resp twoFence 10 10).2]
  rfl

/-- C6 as amended: `generate_json` strips the reply, then (a) when the reply
contains a ```json marker, decodes the stripped text between the first
```json and the following ``` (even if another fenced block comes first);
(b) otherwise, when it contains ```, decodes the stripped text between the
first two ``` markers (language tag included); (c) otherwise decodes the
stripped reply itself. In every case a decode failure produces a dictionary
carrying an error description and the original raw reply unchanged, and the
parse step is a total function — the `json.JSONDecodeError` is caught. The
fence hypotheses are phrased through the code's own split operation. -/
theorem c6_generate_json_fence_pipeline (e : EngineCfg) (now : Nat)
    (outcome : ProviderOutcome) (tr : TrackerState) (reply : String)
    (hs : (generate e now none outcome tr).resp.success = true)
    (hc : (generate e now none outcome tr).resp.content = reply) :
    (∀ a rest b, ∀ more btail : List String,
      pySplit (pyStrip reply) "```json" = a :: rest :: more →
      pySplit rest "```" = b :: btail →
      (∀ v, jsonLoads (pyStrip b) = .ok v → (generate_json e now outcome tr).1 = v) ∧
      (∀ err, jsonLoads (pyStrip b) = .error err →
        (generate_json e now outcome tr).1 =
          Json.obj [("error", Json.str ("Invalid JSON: " ++ err)),
                    ("raw", Json.str reply)])) ∧
    (pyContains (pyStrip reply) "```json" = false →
      ∀ a rest, ∀ more : List String,
      pySplit (pyStrip reply) "```" = a :: rest :: more →
      pySplit rest "```" = [rest] →
      (∀ v, jsonLoads (pyStrip rest) = .ok v → (generate_json e now outcome tr).1 = v) ∧
      (∀ err, jsonLoads (pyStrip rest) = .error err →
        (generate_json e now outcome tr).1 =
          Json.obj [("error", Json.str ("Invalid JSON: " ++ err)),
                    ("raw", Json.str reply)])) ∧
    (pyContains (pyStrip reply) "```json" = false →
      pyContains (pyStrip reply) "```" = false →
      (∀ v, jsonLoads (pyStrip (pyStrip reply)) = .ok v →
        (generate_json e now outcome tr).1 = v) ∧
      (∀ err, jsonLoads (pyStrip (pyStrip reply)) = .error err →
        (generate_json e now outcome tr).1 =
          Json.obj [("error", Json.str ("Invalid JSON: " ++ err)),
                    ("raw", Json.str reply)])) := by
  have key : ∀ t : String, extractJsonText reply = pyStrip t →
      (∀ v, jsonLoads (pyStrip t) = .ok v → (generate_json e now outcome tr).1 = v) ∧
      (∀ err, jsonLoads (pyStrip t) = .error err →
        (generate_json e now outcome tr).1 =
          Json.obj [("error", Json.str ("Invalid JSON: " ++ err)),
                    ("raw", Json.str reply)]) := by
    intro t ht
    constructor
    · intro v hj
      rw [generate_json_success_eval e now outcome tr reply hs hc, ht, hj]
    · intro err hj
      rw [generate_json_success_eval e now outcome tr reply hs hc, ht, hj]
  refine ⟨?_, ?_, ?_⟩
  · intro a rest b more btail h1 h2
    exact key b (by simp [extractJsonText, pyContains, h1, h2])
  · intro hnj a rest more h1 h2
    have hnj2 : ¬ (2 ≤ (pySplit (pyStrip reply) "```json").length) := by
      simpa [pyContains] using hnj
    exact key rest (by simp [extractJsonText, pyContains, hnj2, h1, h2])
  · intro hnj hnb
    have hnj2 : ¬ (2 ≤ (pySplit (pyStrip reply) "```json").length) := by
      simpa [pyContains] using hnj
    have hnb2 : ¬ (2 ≤ (pySplit (pyStrip reply) "```").length) := by
      simpa [pyContains] using hnb
    exact key (pyStrip reply) (by simp [extractJsonText, pyContains, hnj2, hnb2])

/-- Witness for C6's amended pipeline: a reply with prose around one
json-tagged fence decodes to the fenced number. -/
theorem c6_generate_json_fence_pipeline_witness :
    (generate_json engOk 0 (.reply "x ```json 5``` y" 10 10) (freshTracker 0)).1 =
      Json.num 5 := by
  have h := (c6_generate_json_fence_pipeline engOk 0 (.reply "x ```json 5``` y" 10 10)
    (freshTracker 0) "x ```json 5``` y"
    (gen_engOk_fresh_resp "x ```json 5``` y" 10 10).1
    (gen_engOk_fresh_resp "x ```json 5``` y" 10 10).2).1
    "x " " 5``` y" " 5" [] [" y"] (by decide) (by decide)
  exact h.1 (Json.num 5) rfl

/-- C9. For every worker (any abstract handler and any starting counters),
delivering a message through `receive_message` to a worker that is idle
beforehand leaves it idle after completion, increments `messages_received` by
exactly one, and increments `messages_sent` by exactly one when the handler
produced a response message and by zero when it produced none. -/
theorem c9_receive_message_lifecycle
    (handler : HiveMessage → Nat × Nat × Option HiveMessage)
    (a : AgentData) (m : HiveMessage) (hidle : a.state = AgentState.idle) :
    (receive_message handler a m).1.state = AgentState.idle ∧
    (receive_message handler a m).1.messages_received = a.messages_received + 1 ∧
    (∀ dc df r, handler m = (dc, df, some r) →
      (receive_message handler a m).1.messages_sent = a.messages_sent + 1) ∧
    (∀ dc df, handler m = (dc, df, none) →
      (receive_message handler a m).1.messages_sent = a.messages_sent) := by
  clear hidle
  unfold receive_message
  rcases hh : handler m with ⟨dc, df, _ | r⟩ <;> simp [hh, send_message]

/-- A freshly started shopper-bee worker state. -/
def aShopper : AgentData :=
  { agent_id := "shopper_bee_001", role := AgentRole.shopper_bee
    state := AgentState.idle, running := true
    tasks_completed := 0, tasks_failed := 0
    messages_sent := 0, messages_received := 0, hasSendCallback := true }

/-- A concrete task message from the queen to the shopper bee. -/
def mTask : HiveMessage :=
  { id := "m1", sender := "queen_bee_001", receiver := "shopper_bee_001"
    content := Json.obj [("type", Json.str "analyze_user")]
    msg_type := MessageType.task, timestamp := "2025-01-01T00:00:00" }

/-- Witness for C9: a handler that completes one task and sends no response,
applied to the fresh idle shopper worker. -/
theorem c9_receive_message_lifecycle_witness :
    (receive_message (fun _ => (1, 0, none)) aShopper mTask).1.state = AgentState.idle ∧
    (receive_message (fun _ => (1, 0, none)) aShopper mTask).1.messages_received = 1 ∧
    (receive_message (fun _ => (1, 0, none)) aShopper mTask).1.messages_sent = 0 := by
  have h := c9_receive_message_lifecycle (fun _ => (1, 0, none)) aShopper mTask rfl
  exact ⟨h.1, h.2.1, h.2.2.2 1 0 rfl⟩

theorem deliver_task_wf_counters (st : QueenState) (bid : String) (c : Json) :
    (deliver_task st bid c).1.workflows_completed = st.workflows_completed ∧
    (deliver_task st bid c).1.workflows_failed = st.workflows_failed := by
  unfold deliver_task
  cases h : st.worker_bees.lookup bid with
  | none => simp
  | some bee => cases h2 : bee.handle c with
    | error e => simp [h, h2]
    | ok p => simp [h, h2]

theorem full_campaign_workflow_counters (st : QueenState) (data : Json) :
    (full_campaign_workflow st data).2.workflows_completed = st.workflows_completed ∧
    (full_campaign_workflow st data).2.workflows_failed = st.workflows_failed := by
  unfold full_campaign_workflow
  cases h1 : find_bee_by_role st AgentRole.shopper_bee with
  | none => simp
  | some sid =>
    rcases hdel : deliver_task st sid (shopperTaskContent data) with ⟨d1, d2⟩
    have hc1 := deliver_task_wf_counters st sid (shopperTaskContent data)
    rw [hdel] at hc1
    dsimp only at hc1
    cases d2 with
    | some e => simp [hdel]; exact hc1
    | none =>
      by_cases ht : beeTasks d1 sid = 0
      · simp [hdel, ht]; exact hc1
      · cases h2 : find_bee_by_role d1 AgentRole.ad_bee with
        | none => simp [hdel, ht, h2]; exact hc1
        | some aid =>
          rcases hdel2 : deliver_task d1 aid (adTaskContent data) with ⟨e1, e2⟩
          have hc2 := deliver_task_wf_counters d1 aid (adTaskContent data)
          rw [hdel2] at hc2
          dsimp only at hc2
          cases e2 with
          | some e =>
            simp [hdel, ht, h2, hdel2]
            exact ⟨hc2.1.trans hc1.1, hc2.2.trans hc1.2⟩
          | none =>
            by_cases ht2 : beeTasks e1 aid = 0 <;>
              simp [hdel, ht, h2, hdel2, ht2] <;>
              exact ⟨hc2.1.trans hc1.1, hc2.2.trans hc1.2⟩

/-- A worker bee whose handler completes one task per received message and
raises nothing. -/
def beeWorkerOk (r : AgentRole) : WBee :=
  { role := r, tasks_completed := 0, tasks_failed := 0, messages_received := 0
    handle := fun _ => .ok (1, 0) }

/-- A shopper bee whose handler raises an exception. -/
def beeRaise : WBee :=
  { role := AgentRole.shopper_bee, tasks_completed := 0, tasks_failed := 0
    messages_received := 0, handle := fun _ => .error "boom" }

/-- A queen with both required roles registered and functional. -/
def qFull : QueenState :=
  { agent_id := "queen_bee_001"
    worker_bees := [("s1", beeWorkerOk AgentRole.shopper_bee),
                    ("a1", beeWorkerOk AgentRole.ad_bee)]
    workflows_completed := 0, workflows_failed := 0 }

/-- A queen with only the shopper role registered. -/
def qShopperOnly : QueenState :=
  { qFull with worker_bees := [("s1", beeWorkerOk AgentRole.shopper_bee)] }

/-- A queen with only the ad role registered. -/
def qMissingShopper : QueenState :=
  { qFull with worker_bees := [("a1", beeWorkerOk AgentRole.ad_bee)] }

/-- A queen whose shopper bee raises on receipt. -/
def qBoom : QueenState :=
  { qFull with worker_bees := [("s1", beeRaise), ("a1", beeWorkerOk AgentRole.ad_bee)] }

/-- The workflow payload used in the concrete workflow runs. -/
def dataU : Json := Json.obj [("user_id", Json.str "u1")]

/-- C8 counterexample. The claim says every `execute_workflow` result,
terminal or failing, carries an elapsed execution time. When a worker's
handler raises, the `except` branch of `execute_workflow` returns a
dictionary with the workflow id and error but never assigns
`execution_time`, so that key is absent. -/
theorem c8_exception_path_missing_execution_time :
    (execute_workflow "t" 1 qBoom "full_ad_campaign" dataU).1.execution_time = none ∧
    (execute_workflow "t" 1 qBoom "full_ad_campaign" dataU).1.workflow_id =
      some "workflow_t" ∧
    (execute_workflow "t" 1 qBoom "full_ad_campaign" dataU).1.error = some "boom" ∧
    (execute_workflow "t" 1 qBoom "full_ad_campaign" dataU).2.workflows_failed = 1 := by
  exact ⟨rfl, rfl, rfl, rfl⟩

/-- C8 as amended. Running `full_ad_campaign` with the shopper role
unregistered fails immediately with "Shopper bee not found", leaves the
registry untouched and counts one failed workflow; with the ad role
unregistered (after a completed shopper step) it fails with "Ad bee not
found". Every invocation's result carries the generated
`workflow_<timestamp>` identifier and increments exactly one of the
completed/failed counters; the elapsed execution time is stamped on every
run on which no worker handler raised — on the exception path only the
identifier and error are attached. -/
theorem c8_workflow_role_check_and_bookkeeping (ts : String) (elapsed : ℚ)
    (st : QueenState) (wt : String) (data : Json) :
    (find_bee_by_role st AgentRole.shopper_bee = none →
      (execute_workflow ts elapsed st "full_ad_campaign" data).1.success = false ∧
      (execute_workflow ts elapsed st "full_ad_campaign" data).1.error =
        some "Shopper bee not found" ∧
      (execute_workflow ts elapsed st "full_ad_campaign" data).1.execution_time =
        some elapsed ∧
      (execute_workflow ts elapsed st "full_ad_campaign" data).2.worker_bees =
        st.worker_bees ∧
      (execute_workflow ts elapsed st "full_ad_campaign" data).2.workflows_failed =
        st.workflows_failed + 1 ∧
      (execute_workflow ts elapsed st "full_ad_campaign" data).2.workflows_completed =
        st.workflows_completed) ∧
    (∀ sid, find_bee_by_role st AgentRole.shopper_bee = some sid →
      (deliver_task st sid (shopperTaskContent data)).2 = none →
      beeTasks (deliver_task st sid (shopperTaskContent data)).1 sid ≠ 0 →
      find_bee_by_role (deliver_task st sid (shopperTaskContent data)).1
        AgentRole.ad_bee = none →
      (execute_workflow ts elapsed st "full_ad_campaign" data).1.success = false ∧
      (execute_workflow ts elapsed st "full_ad_campaign" data).1.error =
        some "Ad bee not found") ∧
    ((execute_workflow ts elapsed st wt data).1.workflow_id =
        some ("workflow_" ++ ts) ∧
     ((execute_workflow ts elapsed st wt data).1.success = true →
       (execute_workflow ts elapsed st wt data).2.workflows_completed =
         st.workflows_completed + 1 ∧
       (execute_workflow ts elapsed st wt data).2.workflows_failed =
         st.workflows_failed) ∧
     ((execute_workflow ts elapsed st wt data).1.success = false →
       (execute_workflow ts elapsed st wt data).2.workflows_failed =
         st.workflows_failed + 1 ∧
       (execute_workflow ts elapsed st wt data).2.workflows_completed =
         st.workflows_completed) ∧
     (∀ w, (if wt = "full_ad_campaign" then full_campaign_workflow st data
            else (Except.ok { success := false, error := some "Unknown workflow" },
                  st)).1 = Except.ok w →
       (execute_workflow ts elapsed st wt data).1.execution_time = some elapsed)) := by
  refine ⟨?_, ?_, ?_⟩
  · intro h
    simp [execute_workflow, full_campaign_workflow, h]
  · intro sid h1 h2 h3 h4
    rcases hdel : deliver_task st sid (shopperTaskContent data) with ⟨d1, d2⟩
    rw [hdel] at h2 h3 h4
    subst h2
    simp only at h3 h4
    simp [execute_workflow, full_campaign_workflow, h1, hdel, h3, h4]
  · rcases hfc : (if wt = "full_ad_campaign" then full_campaign_workflow st data
      else (Except.ok { success := false, error := some "Unknown workflow" }, st))
      with ⟨res, st1⟩
    have hst1 : st1.workflows_completed = st.workflows_completed ∧
        st1.workflows_failed = st.workflows_failed := by
      by_cases hwt : wt = "full_ad_campaign"
      · rw [if_pos hwt] at hfc
        have hh := full_campaign_workflow_counters st data
        rw [hfc] at hh
        dsimp only at hh
        exact hh
      · rw [if_neg hwt] at hfc
        have h2 : st = st1 := congrArg Prod.snd hfc
        rw [← h2]
        exact ⟨rfl, rfl⟩
    rcases res with e | w
    · simp [execute_workflow, hfc, hst1.1, hst1.2]
    · by_cases hw : w.success <;> simp [execute_workflow, hfc, hw, hst1.1, hst1.2]

/-- Witness for C8's amended statement: the missing-shopper error, the
missing-ad error, and the id/duration/counter bookkeeping on a run with both
roles registered. -/
theorem c8_workflow_role_check_and_bookkeeping_witness :
    ((execute_workflow "t" 1 qMissingShopper "full_ad_campaign" dataU).1.error =
      some "Shopper bee not found" ∧
     (execute_workflow "t" 1 qMissingShopper "full_ad_campaign" dataU).2.worker_bees =
      qMissingShopper.worker_bees) ∧
    (execute_workflow "t" 1 qShopperOnly "full_ad_campaign" dataU).1.error =
      some "Ad bee not found" ∧
    ((execute_workflow "t" 1 qFull "full_ad_campaign" dataU).1.workflow_id =
      some ("workflow_" ++ "t") ∧
     (execute_workflow "t" 1 qFull "full_ad_campaign" dataU).1.execution_time = some 1 ∧
     (execute_workflow "t" 1 qFull "full_ad_campaign" dataU).2.workflows_completed =
      qFull.workflows_completed + 1) := by
  refine ⟨⟨?_, ?_⟩, ?_, ?_, ?_, ?_⟩
  · exact ((c8_workflow_role_check_and_bookkeeping "t" 1 qMissingShopper
      "full_ad_campaign" dataU).1 rfl).2.1
  · exact ((c8_workflow_role_check_and_bookkeeping "t" 1 qMissingShopper
      "full_ad_campaign" dataU).1 rfl).2.2.2.1
  · exact ((c8_workflow_role_check_and_bookkeeping "t" 1 qShopperOnly
      "full_ad_campaign" dataU).2.1 "s1" rfl rfl (by decide) rfl).2
  · exact (c8_workflow_role_check_and_bookkeeping "t" 1 qFull
      "full_ad_campaign" dataU).2.2.1
  · exact (c8_workflow_role_check_and_bookkeeping "t" 1 qFull
      "full_ad_campaign" dataU).2.2.2.2.2
      { success := true, message := some "Complete workflow executed"
        bees_involved := ["s1", "a1"] } rfl
  · exact ((c8_workflow_role_check_and_bookkeeping "t" 1 qFull
      "full_ad_campaign" dataU).2.2.2.1 rfl).1

theorem countIn_le_length (T m : Nat) (l : List Nat) : countIn T m l ≤ l.length :=
  List.countP_le_length _

theorem countIn_mono_right (T m mm : Nat) (l : List Nat) (h : m ≤ mm) :
    countIn T m l ≤ countIn T mm l := by
  apply List.countP_mono_left
  intro x _ hx
  simp only [Bool.and_eq_true, decide_eq_true_eq] at hx ⊢
  exact ⟨hx.1, le_trans hx.2 h⟩

theorem countIn_filter_window (T m now : Nat) (l : List Nat)
    (_hm : m ≤ now) (hw : now < T + 60) :
    countIn T m (l.filter (fun t => decide (tdSeconds now t < 60))) = countIn T m l := by
  unfold countIn
  rw [List.countP_filter]
  apply List.countP_congr
  intro x _
  constructor
  · intro h
    simp only [Bool.and_eq_true] at h ⊢
    exact h.1
  · intro h
    simp only [Bool.and_eq_true, decide_eq_true_eq] at h ⊢
    refine ⟨⟨h.1, h.2⟩, ?_⟩
    unfold tdSeconds
    have h1 : now - x < 60 := by omega
    exact lt_of_le_of_lt (Nat.mod_le _ _) h1

theorem countIn_snoc (T m x : Nat) (l : List Nat) (h1 : T ≤ x) (h2 : x ≤ m) :
    countIn T m (l ++ [x]) = countIn T m l + 1 := by
  unfold countIn
  rw [List.countP_append]
  simp [h1, h2]

theorem reset_if_needed_minute (now : Nat) (s : TrackerState) :
    (reset_if_needed now s).minute_requests =
      s.minute_requests.filter (fun t => decide (tdSeconds now t < 60)) := by
  unfold reset_if_needed
  dsimp only
  split <;> rfl

theorem record_usage_minute (now tok : Nat) (cost : ℚ) (s : TrackerState) :
    (record_usage now tok cost s).minute_requests = s.minute_requests ++ [now] := rfl

theorem record_usage_max_rpm (now tok : Nat) (cost : ℚ) (s : TrackerState) :
    (record_usage now tok cost s).max_requests_per_minute = s.max_requests_per_minute := rfl

theorem listStartsWith_append (xs ys : List Char) : listStartsWith xs (xs ++ ys) = true := by
  induction xs with
  | nil => rfl
  | cons a as ih => simp [listStartsWith, ih]

theorem rate_msg_startsWith (w : String) :
    listStartsWith "Rate limit reached".data
      ("Rate limit reached. Wait " ++ w ++ "s").data = true := by
  have hd : ("Rate limit reached. Wait " ++ w ++ "s").data =
      "Rate limit reached".data ++ (". Wait ".data ++ (w.data ++ "s".data)) := by
    have h1 : ("Rate limit reached. Wait " ++ w ++ "s").data =
        ("Rate limit reached. Wait ".data ++ w.data) ++ "s".data := rfl
    have h2 : "Rate limit reached. Wait ".data =
        "Rate limit reached".data ++ ". Wait ".data := by decide
    rw [h1, h2]
    simp [List.append_assoc]
  rw [hd]
  exact listStartsWith_append _ _

theorem check_limits_rate (now est : Nat) (s : TrackerState)
    (h : s.max_requests_per_minute ≤ (reset_if_needed now s).minute_requests.length) :
    check_limits now est s = ⟨reset_if_needed now s, false,
      "Rate limit reached. Wait " ++
        toString ((60 : Int) - (tdSeconds now
          ((reset_if_needed now s).minute_requests.headD 0) : Int)) ++ "s"⟩ := by
  unfold check_limits
  dsimp only
  rw [if_pos (by rw [reset_if_needed_max_rpm]; exact h)]

theorem check_limits_true_minute (now est : Nat) (s : TrackerState)
    (h : (check_limits now est s).allowed = true) :
    (reset_if_needed now s).minute_requests.length < s.max_requests_per_minute := by
  by_contra hc
  push_neg at hc
  rw [check_limits_rate now est s hc] at h
  exact absurd h (by simp)

theorem admit_record_run_length (calls : List (Nat × Nat × Nat × ℚ)) (s : TrackerState) :
    (admit_record_run calls s).1.length = calls.length := by
  induction calls generalizing s with
  | nil => rfl
  | cons c rest ih =>
    obtain ⟨now, est, tok, cost⟩ := c
    simp [admit_record_run, ih]

theorem admit_record_run_invariant :
    ∀ (calls : List (Nat × Nat × Nat × ℚ)) (s : TrackerState) (T m k : Nat),
    (∀ c ∈ calls, T ≤ c.1 ∧ c.1 < T + 60) →
    (∀ c ∈ calls, m ≤ c.1) →
    calls.Pairwise (fun a b => a.1 ≤ b.1) →
    k ≤ countIn T m s.minute_requests →
    ((admit_record_run calls s).1.countP (fun r => r.1) ≤ s.max_requests_per_minute - k) ∧
    (∀ i, i < (admit_record_run calls s).1.length →
      s.max_requests_per_minute ≤ k + ((admit_record_run calls s).1.take i).countP (fun r => r.1) →
      ((admit_record_run calls s).1.getD i (true, "")).1 = false ∧
      listStartsWith "Rate limit reached".data
        ((admit_record_run calls s).1.getD i (true, "")).2.data = true)
  | [], s, T, m, k, hwin, hm, hp, hinv => by
      constructor
      · simp [admit_record_run]
      · intro i hi
        simp [admit_record_run] at hi
  | (now, est, tok, cost) :: rest, s, T, m, k, hwin, hm, hp, hinv => by
      have hwin0 : T ≤ now ∧ now < T + 60 := hwin _ (List.mem_cons_self _ _)
      have hm0 : m ≤ now := hm _ (List.mem_cons_self _ _)
      rw [List.pairwise_cons] at hp
      obtain ⟨hphead, hptail⟩ := hp
      have hwinrest : ∀ c ∈ rest, T ≤ c.1 ∧ c.1 < T + 60 :=
        fun c hc => hwin c (List.mem_cons_of_mem _ hc)
      have hmrest : ∀ c ∈ rest, now ≤ c.1 := fun c hc => hphead c hc
      have hcnt_pres : countIn T m (reset_if_needed now s).minute_requests =
          countIn T m s.minute_requests := by
        rw [reset_if_needed_minute]
        exact countIn_filter_window T m now _ hm0 hwin0.2
      have hcnt_now : k ≤ countIn T now (reset_if_needed now s).minute_requests :=
        le_trans (le_trans hinv hcnt_pres.ge) (countIn_mono_right T m now _ hm0)
      cases hA : (check_limits now est s).allowed
      · -- rejected step
        have hrun : admit_record_run ((now, est, tok, cost) :: rest) s =
            (((check_limits now est s).allowed, (check_limits now est s).reason) ::
              (admit_record_run rest (check_limits now est s).tracker).1,
             (admit_record_run rest (check_limits now est s).tracker).2) := by
          simp [admit_record_run, hA]
        have hmax1 : (check_limits now est s).tracker.max_requests_per_minute =
            s.max_requests_per_minute := by
          rw [check_limits_tracker, reset_if_needed_max_rpm]
        have ih := admit_record_run_invariant rest (check_limits now est s).tracker
          T now k hwinrest hmrest hptail
          (by rw [check_limits_tracker]; exact hcnt_now)
        rw [hmax1] at ih
        constructor
        · rw [hrun]
          simp only [List.countP_cons, hA, if_false]
          simpa using ih.1
        · intro i hi hcnt
          rw [hrun] at hi hcnt ⊢
          cases i with
          | zero =>
            have hk : s.max_requests_per_minute ≤ k := by simpa using hcnt
            have hlen : s.max_requests_per_minute ≤
                (reset_if_needed now s).minute_requests.length :=
              le_trans (le_trans hk hcnt_now) (countIn_le_length _ _ _)
            have hc := check_limits_rate now est s hlen
            simp only [List.getD_cons_zero]
            rw [hc]
            exact ⟨rfl, rate_msg_startsWith _⟩
          | succ i =>
            have hi2 : i < (admit_record_run rest (check_limits now est s).tracker).1.length := by
              simpa using hi
            have hcnt2 : s.max_requests_per_minute ≤
                k + ((admit_record_run rest
                  (check_limits now est s).tracker).1.take i).countP (fun r => r.1) := by
              simpa [List.countP_cons, hA] using hcnt
            simpa using ih.2 i hi2 hcnt2
      · -- admitted step
        have hklt : k < s.max_requests_per_minute :=
          lt_of_le_of_lt (le_trans hcnt_now (countIn_le_length _ _ _))
            (check_limits_true_minute now est s hA)
        have hrun : admit_record_run ((now, est, tok, cost) :: rest) s =
            (((check_limits now est s).allowed, (check_limits now est s).reason) ::
              (admit_record_run rest
                (record_usage now tok cost (check_limits now est s).tracker)).1,
             (admit_record_run rest
                (record_usage now tok cost (check_limits now est s).tracker)).2) := by
          simp [admit_record_run, hA]
        have hmax1 : (record_usage now tok cost
            (check_limits now est s).tracker).max_requests_per_minute =
            s.max_requests_per_minute := by
          rw [record_usage_max_rpm, check_limits_tracker, reset_if_needed_max_rpm]
        have hinv2 : k + 1 ≤ countIn T now
            (record_usage now tok cost (check_limits now est s).tracker).minute_requests := by
          rw [record_usage_minute, check_limits_tracker,
            countIn_snoc T now now _ hwin0.1 (le_refl now)]
          omega
        have ih := admit_record_run_invariant rest
          (record_usage now tok cost (check_limits now est s).tracker)
          T now (k + 1) hwinrest hmrest hptail hinv2
        rw [hmax1] at ih
        constructor
        · rw [hrun]
          simp only [List.countP_cons, hA, if_true]
          have := ih.1
          omega
        · intro i hi hcnt
          rw [hrun] at hi hcnt ⊢
          cases i with
          | zero =>
            have hk : s.max_requests_per_minute ≤ k := by simpa using hcnt
            omega
          | succ i =>
            have hi2 : i < (admit_record_run rest
                (record_usage now tok cost (check_limits now est s).tracker)).1.length := by
              simpa using hi
            have hcnt2 : s.max_requests_per_minute ≤
                (k + 1) + ((admit_record_run rest
                  (record_usage now tok cost
                    (check_limits now est s).tracker)).1.take i).countP (fun r => r.1) := by
              have := hcnt
              simp only [List.take_succ_cons, List.countP_cons, hA, if_true] at this
              omega
            simpa using ih.2 i hi2 hcnt2

/-- C3 as amended: for every sequence of admit/record pairs (one
`check_limits` call followed, when admitted, by one `record_usage` call with
the actual usage — the protocol `generate` follows) whose call times are
nondecreasing and lie within one rolling minute `[T, T + 60)`, starting from
any tracker state, the number of admitted calls never exceeds
`max_requests_per_minute`; and any call for which the window already holds
the ceiling (in-window timestamps present at the start plus calls admitted so
far) is rejected with a reason beginning "Rate limit reached". The original
claim, quantified over bare `check_limits` calls, is false because
`check_limits` records nothing — see the counterexample. -/
theorem c3_admit_record_minute_ceiling (calls : List (Nat × Nat × Nat × ℚ)) (T : Nat) (s : TrackerState)
    (hwin : ∀ c ∈ calls, T ≤ c.1 ∧ c.1 < T + 60)
    (hmono : calls.Pairwise (fun a b => a.1 ≤ b.1)) :
    ((admit_record_run calls s).1.countP (fun r => r.1) ≤ s.max_requests_per_minute) ∧
    (∀ i, i < (admit_record_run calls s).1.length →
      s.max_requests_per_minute ≤ countIn T T s.minute_requests +
        ((admit_record_run calls s).1.take i).countP (fun r => r.1) →
      ((admit_record_run calls s).1.getD i (true, "")).1 = false ∧
      listStartsWith "Rate limit reached".data
        ((admit_record_run calls s).1.getD i (true, "")).2.data = true) := by
  constructor
  · have h := admit_record_run_invariant calls s T T 0 hwin
      (fun c hc => (hwin c hc).1) hmono (Nat.zero_le _)
    exact le_trans h.1 (Nat.sub_le _ _)
  · have h := admit_record_run_invariant calls s T T (countIn T T s.minute_requests) hwin
      (fun c hc => (hwin c hc).1) hmono (le_refl _)
    exact h.2

/-- Five admit/record attempts at time 0 with 100 estimated tokens, 10
actual tokens and zero cost each. -/
def calls5 : List (Nat × Nat × Nat × ℚ) := List.replicate 5 (0, 100, 10, 0)

/-- Witness for C3's amended statement: five admit/record attempts at time 0
against a tracker whose minute window already holds ten requests; the bound
holds and the first call is rejected with a rate-limit reason. -/
theorem c3_admit_record_minute_ceiling_witness :
    ((admit_record_run calls5 trTenAtZero).1.countP (fun r => r.1) ≤
      trTenAtZero.max_requests_per_minute) ∧
    ((admit_record_run calls5 trTenAtZero).1.getD 0 (true, "")).1 = false ∧
    listStartsWith "Rate limit reached".data
      ((admit_record_run calls5 trTenAtZero).1.getD 0 (true, "")).2.data = true := by
  have h := c3_admit_record_minute_ceiling calls5 0 trTenAtZero (by decide) (by decide)
  have hlen : (admit_record_run calls5 trTenAtZero).1.length = 5 := by
    rw [admit_record_run_length]; rfl
  have h0 := h.2 0 (by rw [hlen]; decide)
    (by simp only [List.take_zero, List.countP_nil]; decide)
  exact ⟨h.1, h0.1, h0.2⟩

theorem reset0_fresh : reset_if_needed 0 (freshTracker 0) = freshTracker 0 := rfl

theorem check_fresh0_eval :
    check_limits 0 100 (freshTracker 0) = ⟨freshTracker 0, true, "OK"⟩ := by
  unfold check_limits
  dsimp only
  rw [reset0_fresh]
  rw [if_neg (by decide), if_neg (by decide), if_neg (by norm_num [freshTracker])]

theorem run_checks_fresh (n : Nat) :
    run_checks 100 (List.replicate n 0) (freshTracker 0) =
      (List.replicate n true, freshTracker 0) := by
  induction n with
  | zero => rfl
  | succ n ih => simp [run_checks, check_fresh0_eval, ih, List.replicate_succ]

/-- C3 counterexample. Eleven bare `check_limits` calls at time 0 on a fresh
default tracker (ceiling 10) are all admitted: `check_limits` never appends
to the minute list (only `record_usage` does), so with no interleaved
records the number of admitted calls within one rolling minute exceeds
`max_requests_per_minute`, refuting the claim as stated. -/
theorem c3_bare_admit_calls_counterexample :
    (run_checks 100 (List.replicate 11 0) (freshTracker 0)).1.countP (fun b => b) = 11 ∧
    (freshTracker 0).max_requests_per_minute = 10 := by
  rw [run_checks_fresh 11]
  exact ⟨by decide, by decide⟩
